import Mathlib

/-!
Verification of the CSR discovery, node-matching, and phased approval and
verification engine of `roles/lib_openshift/library/oc_csr_approve.py`.

The Python module is shallowly embedded below.  External collaborators
(the cluster query gateway, the approval action, the certificate
introspection tool and the node health probe) are passed in as explicit
oracle functions; a probe oracle is indexed by an invocation counter so
that its answer may vary over time.  Fallible Python paths are modelled
with `Except` / `Option`:

* `module.fail_json(**d)` terminating the run is a `.fatal` outcome
  carrying the fields of the dictionary `d`;
* an uncaught Python exception (the `item_parts[1]` IndexError in
  `parse_subject_cn`) is a `.crash` outcome;
* the `while` loop of `verify_server_csrs` is given explicit fuel, and
  exhausting every fuel bound models non-termination.
-/

deriving instance DecidableEq for Except

namespace OcCsrApprove

/-!
Python string primitives.  `String.splitOn`, `String.trim` and
`String.startsWith` in core Lean are compiled from well-founded recursions
that the kernel cannot unfold, so concrete instances could not be settled
by `decide`/`rfl`.  The functions below re-implement Python's `str.split`
(non-overlapping, left to right, on a non-empty separator), `str.strip`
and `str.startswith` by structural recursion over the character list, so
every definition in this file evaluates inside the kernel.
-/

/-- One step of `str.split`: with `fuel ≥ s.length` this computes Python's
`s.split(sep)` for a non-empty separator `sep` (each recursive call consumes
at least one character, so the fuel is never exhausted). -/
def splitSeqF (sep : List Char) : Nat → List Char → List (List Char)
  | _, [] => [[]]
  | 0, s => [s]
  | fuel + 1, c :: rest =>
    if sep.isPrefixOf (c :: rest) then
      [] :: splitSeqF sep fuel (rest.drop (sep.length - 1))
    else
      match splitSeqF sep fuel rest with
      | [] => [[c]]
      | h :: t => (c :: h) :: t

/-- Python `s.split(sep)` on strings (`sep` non-empty). -/
def pySplit (sep s : String) : List String :=
  (splitSeqF sep.data s.data.length s.data).map List.asString

/-- Python whitespace test used by `str.strip`. -/
def pyIsSpace (c : Char) : Bool :=
  c = ' ' || c = '\t' || c = '\n' || c = '\r'

/-- Python `s.strip()`. -/
def pyTrim (s : String) : String :=
  (((s.data.dropWhile pyIsSpace).reverse.dropWhile pyIsSpace).reverse).asString

/-- Python `s.startswith(marker)`. -/
def pyStartsWith (s marker : String) : Bool :=
  marker.data.isPrefixOf s.data

/-- Python `s[n:]` (drop the first `n` characters). -/
def pyDrop (n : Nat) (s : String) : String :=
  (s.data.drop n).asString

/-- Python `sep.join(l)`. -/
def pyJoin (sep : String) : List String → String
  | [] => ""
  | [x] => x
  | x :: y :: rest => x ++ sep ++ pyJoin sep (y :: rest)

/-- The `CERT_MODE` table keys: the two usage classes of the module. -/
inductive CertMode
  | client
  | server
deriving DecidableEq

/-- Source: `CERT_MODE = {'client': 'client auth', 'server': 'server auth'}`. -/
def CERT_MODE : CertMode → String
  | .client => "client auth"
  | .server => "server auth"

/-- One CSR object as `process_csrs` reads it.  `statusConditions` models
`item['status'].get('conditions')` (`none` = the `conditions` key is absent,
`some []` = present but empty); `usages` models `item['spec']['usages']`;
`request` is the opaque payload handed to the introspection collaborator. -/
structure Csr where
  name : String
  statusConditions : Option (List String)
  usages : List String
  request : String
deriving DecidableEq

/-- Fatal outcomes raised from inside `process_csrs`:
`runCommandFailed err` models `run_command` calling `module.fail_json`
when the introspection command exits non-zero (with stderr `err`);
`indexError` models the uncaught IndexError of `parse_subject_cn`. -/
inductive PyErr
  | runCommandFailed (err : String)
  | indexError
deriving DecidableEq

/-- Source, `parse_subject_cn` lines 118-121: strip the `subject=` text
(8 characters) and surrounding whitespace, split on `,` trimming each part;
if exactly one token resulted, split on `/` instead, trim, and drop the
first (empty) segment. -/
def subjectTokens (subject_str : String) : List String :=
  let stripped_string := pyTrim (pyDrop 8 subject_str)
  let kv_strings := (pySplit "," stripped_string).map pyTrim
  if kv_strings.length = 1 then
    ((pySplit "/" stripped_string).map pyTrim).drop 1
  else kv_strings

/-- Source, `parse_subject_cn` lines 122-125: scan the `K=V` tokens; on the
first token whose trimmed key is `CN` return its trimmed value; a bare `CN`
token with no `=` would raise IndexError (`.error ()`); falling off the end
returns Python `None` (`.ok none`). -/
def findCn : List String → Except Unit (Option String)
  | [] => .ok none
  | item :: rest =>
    let item_parts := (pySplit "=" item).map pyTrim
    if item_parts.headD "" = "CN" then
      match item_parts.drop 1 with
      | [] => .error ()
      | v :: _ => .ok (some v)
    else findCn rest

/-- Source: `parse_subject_cn(subject_str)`. -/
def parse_subject_cn (subject_str : String) : Except Unit (Option String) :=
  findCn (subjectTokens subject_str)

/-- Source, `process_csrs` lines 133-136: `status = item['status'].get('conditions')`
followed by `if status: continue` — the CSR is treated as pending exactly when
the conditions are absent (`None`) or the empty collection. -/
def pendingB (item : Csr) : Bool :=
  match item.statusConditions with
  | none => true
  | some [] => true
  | some (_ :: _) => false

/-- Source, `process_csrs` lines 148-150: when the common name is non-empty and
starts with `system:node:`, the code takes `common_name.split('system:node:')[1]`,
i.e. the segment between the first occurrence of the marker and the next
occurrence (the whole remainder when the marker occurs only once). -/
def stripSystemNode (cn : String) : String :=
  if cn != "" && pyStartsWith cn "system:node:" then
    ((pySplit "system:node:" cn).drop 1).headD ""
  else cn

/-- Source: `process_csrs(module, csrs, node_list, mode)`.  The introspection
collaborator (`openssl req -noout -subject` run through `run_command`) is the
oracle `openssl : String → Except String String` mapping a request payload to
the subject line, or to stderr text when the command exits non-zero — in which
case `run_command` calls `module.fail_json`, aborting the whole scan
(`.error (.runCommandFailed err)`).  A parsed common name of `None` is simply
never in `node_list`, so the CSR is skipped. -/
def process_csrs (openssl : String → Except String String) :
    List Csr → List String → CertMode → Except PyErr (List (String × String))
  | [], _, _ => .ok []
  | item :: rest, node_list, mode =>
    let restRes := process_csrs openssl rest node_list mode
    if pendingB item = false then restRes
    else if CERT_MODE mode ∈ item.usages then
      match openssl item.request with
      | .error err => .error (.runCommandFailed err)
      | .ok stdout =>
        match parse_subject_cn stdout with
        | .error _ => .error .indexError
        | .ok none => restRes
        | .ok (some cn) =>
          let common_name := stripSystemNode cn
          if common_name ∈ node_list then
            restRes.map (fun d => (item.name, common_name) :: d)
          else restRes
    else restRes

/-- Source: `confirm_needed_requests_present(module, not_ready_nodes, csr_dict)`.
Result `some missing` models the `module.fail_json` call naming the nodes of
`set(not_ready_nodes)` left after discarding every matched value; `none` is
the silent success path.  The Python set is modelled by a deduplicated list. -/
def confirm_needed_requests_present (not_ready_nodes : List String)
    (csr_dict : List (String × String)) : Option (List String) :=
  let vals := csr_dict.map Prod.snd
  let nodes_needed := (not_ready_nodes.filter (fun n => !(vals.contains n))).dedup
  if nodes_needed.isEmpty then none else some nodes_needed

/-- Result triple of `module.run_command` for the approval action. -/
structure CmdOut where
  rtnc : Nat
  stdout : String
  err : String
deriving DecidableEq

/-- Source, `approve_csrs` line 178/181: the exact command string issued for
one CSR. -/
def approveCommand (oc_bin oc_conf csr : String) : String :=
  oc_bin ++ " " ++ oc_conf ++ " adm certificate approve " ++ csr

/-- The dictionary passed to `module.fail_json` by `approve_csrs`: the stderr
message together with the `approve_results` list gathered so far (which, in
the source, already includes the stdout of the failing attempt). -/
structure ApproveFailure where
  msg : String
  results : List String
deriving DecidableEq

/-- Source: `approve_csrs(module, oc_bin, oc_conf, csr_pending_list, mode)`.
The first component of the result instruments the embedding: it is the list
of approval commands actually handed to `module.run_command`, in order.  The
second component is `.ok` with the collected stdouts, or `.error` with the
fail_json dictionary (stderr text and the partial stdout list, the failing
attempt's stdout included). -/
def approve_csrs (runCommand : String → CmdOut) (oc_bin oc_conf : String) :
    List String → List String × Except ApproveFailure (List String)
  | [] => ([], .ok [])
  | csr :: rest =>
    let command := approveCommand oc_bin oc_conf csr
    let r := runCommand command
    if r.rtnc ≠ 0 then ([command], .error ⟨r.err, [r.stdout]⟩)
    else
      let tail := approve_csrs runCommand oc_bin oc_conf rest
      (command :: tail.1,
        match tail.2 with
        | .ok results => .ok (r.stdout :: results)
        | .error f => .error ⟨f.msg, r.stdout :: f.results⟩)

/-- The fields the module ever stores in its `result` dictionary (or in one
of the fresh dictionaries handed to `module.fail_json`).  `none` models an
absent key; the ansible-level default for an absent `failed` key is `False`,
so `failed` is carried as a plain `Bool`. -/
structure ModResult where
  changed : Bool
  rc : Nat
  failed : Bool
  msg : Option String
  client_approve_results : Option (List String)
  server_approve_results : Option (List String)
  state : Option String
deriving DecidableEq

/-- The fresh dictionary `{'failed': True, 'changed': False, 'msg': msg,
'state': 'unknown'}` built on every `module.fail_json` path of the source. -/
def failDict (msg : String) : ModResult :=
  { changed := false, rc := 0, failed := true, msg := some msg,
    client_approve_results := none, server_approve_results := none,
    state := some "unknown" }

/-- Source: `get_ready_nodes_server(module, oc_bin, oc_conf, nodes_list)` —
keep the nodes whose proxied healthz probe exits zero.  `probe` is the health
collaborator for one probing round. -/
def get_ready_nodes_server (probe : String → Bool) (nodes_list : List String) :
    List String :=
  nodes_list.filter probe

/-- Source, `verify_server_csrs` line 231-232: the failure message listing
`not_ready_nodes_server - set(nodes_server_ready)`. -/
def verifyFailMsg (not_ready ready : List String) : String :=
  "Some nodes still not ready after approving server certs: " ++
    pyJoin ", " ((not_ready.filter (fun n => !(ready.contains n))).dedup)

/-- The `while not_ready_nodes_server:` loop of `verify_server_csrs`
(source lines 219-233), instrumented.  `probeAt r` is the health collaborator
in the round numbered `r`.  The loop body never reassigns
`not_ready_nodes_server`, and exceeding the attempt budget only sets the
failure fields of `result` — there is no `break` — so the only loop exits are
an empty set or a round in which every probed node answers.  `fuel` bounds
how many rounds the model is allowed to run: the first component collects the
set probed in each executed round, the second is `some finalResult` when the
loop exited within the fuel and `none` when the fuel ran out (the loop was
still running). -/
def verifyLoopT (probeAt : Nat → String → Bool) :
    Nat → Nat → Nat → List String → ModResult →
    List (List String) × Option ModResult
  | 0, _, _, _, _ => ([], none)
  | fuel + 1, round, attempts, not_ready, result =>
    if not_ready.isEmpty then ([], some result)
    else
      let ready := get_ready_nodes_server (probeAt round) not_ready
      if ready.length = not_ready.length then ([not_ready], some result)
      else
        let attemptsN := attempts + 1
        let resultN :=
          if attemptsN > 9 then
            { result with failed := true, rc := 1,
                          msg := some (verifyFailMsg not_ready ready) }
          else result
        let next := verifyLoopT probeAt fuel (round + 1) attemptsN not_ready resultN
        (not_ready :: next.1, next.2)

/-- Source: `verify_server_csrs(module, result, oc_bin, oc_conf, node_list)`.
Round `0` of `probeAt` is the initial `get_ready_nodes_server` call over the
whole roster; rounds `1, 2, …` are the loop iterations.  Returns the updated
`result` when the loop exits within `fuel` rounds, `none` otherwise. -/
def verify_server_csrs (probeAt : Nat → String → Bool) (fuel : Nat)
    (result : ModResult) (node_list : List String) : Option ModResult :=
  let nodes_server_ready := get_ready_nodes_server (probeAt 0) node_list
  let not_ready := node_list.filter (fun n => !(nodes_server_ready.contains n))
  (verifyLoopT probeAt fuel 1 0 not_ready result).2

/-- The per-round probed sets of one `verify_server_csrs` run: the pre-loop
probe over the full roster followed by the set probed in each loop round. -/
def verify_server_csrs_probed (probeAt : Nat → String → Bool) (fuel : Nat)
    (node_list : List String) : List (List String) :=
  let nodes_server_ready := get_ready_nodes_server (probeAt 0) node_list
  let not_ready := node_list.filter (fun n => !(nodes_server_ready.contains n))
  node_list ::
    (verifyLoopT probeAt fuel 1 0 not_ready
      { changed := false, rc := 0, failed := false, msg := none,
        client_approve_results := none, server_approve_results := none,
        state := none }).1

/-- The external collaborators of one `run_module` execution.  `getNodes`
is the outcome of `get_ready_nodes` (ready node names, or the fatal message
of a failed query/decode); `getCsrs1`/`getCsrs2` are the two `get_csrs`
calls; `openssl` is the introspection collaborator of `process_csrs`;
`runApprove` answers the approval commands; `probeAt` answers the health
probes, indexed by a global probing-round counter (round `0` is the
orchestrator's own `get_ready_nodes_server` call, rounds `1, 2, …` belong
to `verify_server_csrs`). -/
structure Oracles where
  getNodes : Except String (List String)
  getCsrs1 : Except String (List Csr)
  getCsrs2 : Except String (List Csr)
  openssl : String → Except String String
  runApprove : String → CmdOut
  probeAt : Nat → String → Bool

/-- How one `run_module` execution ends: `fatal r` models `module.fail_json(**r)`,
`exit r` models `module.exit_json(**result)`, `crash` models the uncaught
IndexError escaping `parse_subject_cn`. -/
inductive RunOutcome
  | fatal (r : ModResult)
  | exit (r : ModResult)
  | crash
deriving DecidableEq

/-- Convert a `process_csrs` abort into the corresponding run outcome. -/
def pyErrOutcome : PyErr → RunOutcome
  | .runCommandFailed err => .fatal (failDict err)
  | .indexError => .crash

/-- Source: `run_module()` with default `oc_bin`/`oc_conf` parameters.
The first component of the result is the instrumented list of approval
commands actually executed (from `approve_csrs`); the second is `some`
of the terminal outcome, or `none` when `verify_server_csrs` exhausts the
fuel (the poller loop has not exited). -/
def run_module (o : Oracles) (fuel : Nat) (node_list : List String) :
    List String × Option RunOutcome :=
  let oc_bin := "oc"
  let oc_conf := "--config=/etc/origin/master/admin.kubeconfig"
  match o.getNodes with
  | .error msg => ([], some (.fatal (failDict msg)))
  | .ok nodes_ready =>
  let not_ready_nodes := node_list.filter (fun n => !(nodes_ready.contains n))
  match o.getCsrs1 with
  | .error msg => ([], some (.fatal (failDict msg)))
  | .ok csrs =>
  match process_csrs o.openssl csrs node_list .client with
  | .error e => ([], some (pyErrOutcome e))
  | .ok csr_dict =>
  match confirm_needed_requests_present not_ready_nodes csr_dict with
  | some missing =>
    ([], some (.fatal (failDict ("Cound not find csr for nodes: " ++ pyJoin ", " missing))))
  | none =>
  let ap1 := approve_csrs o.runApprove oc_bin oc_conf (csr_dict.map Prod.fst)
  match ap1.2 with
  | .error f =>
    (ap1.1, some (.fatal { failDict f.msg with client_approve_results := some f.results }))
  | .ok client_approve_results =>
  let nodes_server_ready := get_ready_nodes_server (o.probeAt 0) node_list
  let not_ready_nodes_server :=
    node_list.filter (fun n => !(nodes_server_ready.contains n))
  match o.getCsrs2 with
  | .error msg => (ap1.1, some (.fatal (failDict msg)))
  | .ok csrs2 =>
  match process_csrs o.openssl csrs2 node_list .server with
  | .error e => (ap1.1, some (pyErrOutcome e))
  | .ok csr_dict2 =>
  match confirm_needed_requests_present not_ready_nodes_server csr_dict2 with
  | some missing =>
    (ap1.1, some (.fatal (failDict ("Cound not find csr for nodes: " ++ pyJoin ", " missing))))
  | none =>
  let ap2 := approve_csrs o.runApprove oc_bin oc_conf (csr_dict2.map Prod.fst)
  match ap2.2 with
  | .error f =>
    (ap1.1 ++ ap2.1,
      some (.fatal { failDict f.msg with server_approve_results := some f.results }))
  | .ok server_approve_results =>
  let result : ModResult :=
    { changed := !client_approve_results.isEmpty || !server_approve_results.isEmpty,
      rc := 0, failed := false, msg := none,
      client_approve_results := some client_approve_results,
      server_approve_results := some server_approve_results,
      state := none }
  match verify_server_csrs (fun r => o.probeAt (1 + r)) fuel result node_list with
  | none => (ap1.1 ++ ap2.1, none)
  | some resultN => (ap1.1 ++ ap2.1, some (.exit resultN))

/-! Theorems. -/

/-- Scanning `K=V` tokens none of whose trimmed keys is `CN` reaches the end
of the loop and returns Python `None`, never the IndexError branch. -/
theorem findCn_ok_none (ts : List String)
    (h : ∀ item ∈ ts, ((pySplit "=" item).map pyTrim).headD "" ≠ "CN") :
    findCn ts = .ok none := by
  induction ts with
  | nil => rfl
  | cons item rest ih =>
    rw [findCn]
    simp only [if_neg (h item (List.mem_cons_self item rest))]
    exact ih fun i hi => h i (List.mem_cons_of_mem item hi)

/-- C9: for every subject string none of whose tokens (as computed by the
source's `subject=`-stripping and comma/slash splitting) has key `CN`,
`parse_subject_cn` returns the not-found result without raising an
exception; and for the two documented literal inputs it returns `test.io`. -/
theorem C9_parse_subject_cn :
    (∀ s : String,
        (∀ item ∈ subjectTokens s,
          ((pySplit "=" item).map pyTrim).headD "" ≠ "CN") →
        parse_subject_cn s = .ok none) ∧
    parse_subject_cn
        "subject=/C=US/CN=test.io/L=Raleigh/O=Red Hat/ST=North Carolina/OU=OpenShift" =
      .ok (some "test.io") ∧
    parse_subject_cn
        "subject=C = US, CN = test.io, L = City, O = Company, ST = State, OU = Dept" =
      .ok (some "test.io") :=
  ⟨fun _ h => findCn_ok_none _ h, by decide, by decide⟩

/-- Witness for C9 at a concrete CN-free subject string. -/
theorem C9_parse_subject_cn_witness :
    parse_subject_cn "subject=/C=US/O=Org" = .ok none :=
  C9_parse_subject_cn.1 "subject=/C=US/O=Org" (by decide)

/-- C8: the completeness verifier fails exactly when some not-ready node is
missing from the matched values, and the failure enumerates exactly the nodes
of `notReadyNodes - values(matched)`. -/
theorem C8_confirm_characterization (not_ready : List String)
    (csr_dict : List (String × String)) :
    ((confirm_needed_requests_present not_ready csr_dict).isSome ↔
      ∃ n, n ∈ not_ready ∧ n ∉ csr_dict.map Prod.snd) ∧
    (∀ m, confirm_needed_requests_present not_ready csr_dict = some m →
      ∀ n, (n ∈ m ↔ n ∈ not_ready ∧ n ∉ csr_dict.map Prod.snd)) := by
  have hmem : ∀ n,
      (n ∈ ((not_ready.filter
        (fun x => !((csr_dict.map Prod.snd).contains x))).dedup)) ↔
      (n ∈ not_ready ∧ n ∉ csr_dict.map Prod.snd) := by
    intro n
    rw [List.mem_dedup, List.mem_filter, Bool.not_eq_true', ← Bool.not_eq_true,
      not_congr List.elem_iff]
  constructor
  · rw [confirm_needed_requests_present]
    split
    next hempty =>
      rw [List.isEmpty_iff] at hempty
      simp only [Option.isSome_none, Bool.false_eq_true, false_iff]
      rintro ⟨n, hn, hnv⟩
      have hin := (hmem n).2 ⟨hn, hnv⟩
      rw [hempty] at hin
      exact absurd hin (List.not_mem_nil n)
    next hempty =>
      rw [List.isEmpty_iff] at hempty
      simp only [Option.isSome_some, true_iff]
      rcases List.exists_mem_of_ne_nil _ hempty with ⟨n, hn⟩
      exact ⟨n, (hmem n).1 hn⟩
  · intro m hm n
    rw [confirm_needed_requests_present] at hm
    split at hm
    next => exact absurd hm (by simp)
    next =>
      rw [Option.some.injEq] at hm
      rw [← hm]
      exact hmem n

/-- Witness for C8 at the documented P6 instance: `notReadyNodes =
worker-1, worker-2` and `matched = csrA ↦ worker-1` fail naming exactly
`worker-2`. -/
theorem C8_confirm_characterization_witness :
    confirm_needed_requests_present ["worker-1", "worker-2"]
        [("csrA", "worker-1")] = some ["worker-2"] ∧
    ("worker-2" ∈ (["worker-2"] : List String) ↔
      "worker-2" ∈ ["worker-1", "worker-2"] ∧
      "worker-2" ∉ ([("csrA", "worker-1")].map Prod.snd)) :=
  ⟨by decide,
   (C8_confirm_characterization ["worker-1", "worker-2"]
      [("csrA", "worker-1")]).2 ["worker-2"] (by decide) "worker-2"⟩

/-- When every approval before `c` succeeds and the action for `c` fails,
`approve_csrs` executes exactly the commands for the prefix and `c` and
aborts with the stderr of `c` and the stdouts gathered so far (the failing
attempt's stdout included). -/
theorem approve_csrs_fail_spec (runCommand : String → CmdOut)
    (oc_bin oc_conf : String) (pre : List String) (c : String)
    (post : List String)
    (hpre : ∀ x ∈ pre, (runCommand (approveCommand oc_bin oc_conf x)).rtnc = 0)
    (hc : (runCommand (approveCommand oc_bin oc_conf c)).rtnc ≠ 0) :
    approve_csrs runCommand oc_bin oc_conf (pre ++ c :: post) =
      ((pre ++ [c]).map (approveCommand oc_bin oc_conf),
        .error ⟨(runCommand (approveCommand oc_bin oc_conf c)).err,
          (pre ++ [c]).map
            (fun x => (runCommand (approveCommand oc_bin oc_conf x)).stdout)⟩) := by
  induction pre with
  | nil => simp [approve_csrs, hc]
  | cons x pre ih =>
    have hx := hpre x (List.mem_cons_self x pre)
    have htail := ih fun y hy => hpre y (List.mem_cons_of_mem x hy)
    simp [approve_csrs, hx, htail]

/-- C7: when the k-th approval action fails and all earlier ones succeed, the
executed command list stops at the k-th action (nothing after it is invoked)
and the error still carries the stdouts of all earlier approvals — in order,
with nothing recorded for any later CSR. -/
theorem C7_partial_failure_visibility (runCommand : String → CmdOut)
    (oc_bin oc_conf : String) (pre : List String) (c : String)
    (post : List String)
    (hpre : ∀ x ∈ pre, (runCommand (approveCommand oc_bin oc_conf x)).rtnc = 0)
    (hc : (runCommand (approveCommand oc_bin oc_conf c)).rtnc ≠ 0) :
    (approve_csrs runCommand oc_bin oc_conf (pre ++ c :: post)).1 =
      (pre ++ [c]).map (approveCommand oc_bin oc_conf) ∧
    ∃ f : ApproveFailure,
      (approve_csrs runCommand oc_bin oc_conf (pre ++ c :: post)).2 = .error f ∧
      f.results = (pre ++ [c]).map
        (fun x => (runCommand (approveCommand oc_bin oc_conf x)).stdout) := by
  rw [approve_csrs_fail_spec runCommand oc_bin oc_conf pre c post hpre hc]
  exact ⟨rfl, _, rfl, rfl⟩

/-- Concrete failing action oracle used in C7/C10 witnesses: the action for
`c2` fails, every other action succeeds. -/
def failAtC2 : String → CmdOut := fun cmd =>
  if cmd = "oc conf adm certificate approve c2" then ⟨1, "out2", "boom"⟩
  else ⟨0, "ok1", ""⟩

/-- Witness for C7 at three CSRs with the second approval failing: the first
CSR's successful outcome is carried, nothing for the third. -/
theorem C7_partial_failure_visibility_witness :
    (approve_csrs failAtC2 "oc" "conf" (["c1"] ++ "c2" :: ["c3"])).1 =
      (["c1"] ++ ["c2"]).map (approveCommand "oc" "conf") ∧
    ∃ f : ApproveFailure,
      (approve_csrs failAtC2 "oc" "conf" (["c1"] ++ "c2" :: ["c3"])).2 = .error f ∧
      f.results = (["c1"] ++ ["c2"]).map
        (fun x => (failAtC2 (approveCommand "oc" "conf" x)).stdout) :=
  C7_partial_failure_visibility failAtC2 "oc" "conf" ["c1"] "c2" ["c3"]
    (by decide) (by decide)

/-- C10: on a failure at the (k+1)-st approval, the partial result list has
one entry per approval attempted — k successful stdouts plus the failing
attempt's own stdout as its last entry — so its length equals the number of
commands executed, not the number that succeeded. -/
theorem C10_partial_results_count (runCommand : String → CmdOut)
    (oc_bin oc_conf : String) (pre : List String) (c : String)
    (post : List String)
    (hpre : ∀ x ∈ pre, (runCommand (approveCommand oc_bin oc_conf x)).rtnc = 0)
    (hc : (runCommand (approveCommand oc_bin oc_conf c)).rtnc ≠ 0) :
    ∃ f : ApproveFailure,
      (approve_csrs runCommand oc_bin oc_conf (pre ++ c :: post)).2 = .error f ∧
      f.results.length = pre.length + 1 ∧
      f.results.getLast? =
        some (runCommand (approveCommand oc_bin oc_conf c)).stdout ∧
      f.results.length =
        (approve_csrs runCommand oc_bin oc_conf (pre ++ c :: post)).1.length := by
  rw [approve_csrs_fail_spec runCommand oc_bin oc_conf pre c post hpre hc]
  refine ⟨_, rfl, by simp, ?_, by simp⟩
  simp [List.map_append, List.getLast?_concat]

/-- Witness for C10 with two attempted approvals, the second failing: the
partial list has two entries (not one), ending in the failing stdout. -/
theorem C10_partial_results_count_witness :
    ∃ f : ApproveFailure,
      (approve_csrs failAtC2 "oc" "conf" (["c1"] ++ "c2" :: ["c3"])).2 = .error f ∧
      f.results.length = (["c1"] : List String).length + 1 ∧
      f.results.getLast? =
        some (failAtC2 (approveCommand "oc" "conf" "c2")).stdout ∧
      f.results.length =
        (approve_csrs failAtC2 "oc" "conf" (["c1"] ++ "c2" :: ["c3"])).1.length :=
  C10_partial_results_count failAtC2 "oc" "conf" ["c1"] "c2" ["c3"]
    (by decide) (by decide)

/-- Common-name resolution as the claim words it (for comparison with the
source's `split('system:node:')[1]`): strip one leading `system:node:` marker
when present, keeping the whole remainder. -/
def claimStripLeading (cn : String) : String :=
  if pyStartsWith cn "system:node:" then pyDrop 12 cn else cn

/-- C5 counterexample: a pending, correctly-usaged CSR whose Common Name is
`system:node:wsystem:node:z` is matched for node `w` (the source takes the
segment between the first and second occurrence of the marker), although the
Common Name with one leading `system:node:` stripped is `wsystem:node:z`,
which is not an expected node name — so "matched only if the leading-stripped
Common Name is an expected node name" is false on the code. -/
theorem C5_counterexample :
    process_csrs
        (fun r => if r = "r5" then .ok "subject=/CN=system:node:wsystem:node:z"
                  else .error "bad")
        [⟨"c5", none, ["client auth"], "r5"⟩] ["w"] .client = .ok [("c5", "w")] ∧
    claimStripLeading "system:node:wsystem:node:z" = "wsystem:node:z" ∧
    "wsystem:node:z" ∉ (["w"] : List String) := by decide

/-- C5 amended: a CSR appears in the matched set only if it is pending, its
usage set contains the usage token of the requested class, its request
decodes to a subject whose parsed Common Name exists, and the Common Name
resolved as the source resolves it (`split('system:node:')[1]` after a
leading marker, the identity otherwise) is one of the expected node names. -/
theorem C5_matched_only_if (openssl : String → Except String String)
    (csrs : List Csr) (node_list : List String) (mode : CertMode)
    (d : List (String × String)) (n v : String)
    (hok : process_csrs openssl csrs node_list mode = .ok d)
    (hmem : (n, v) ∈ d) :
    ∃ csr, csr ∈ csrs ∧ csr.name = n ∧ pendingB csr = true ∧
      CERT_MODE mode ∈ csr.usages ∧
      ∃ subj cn, openssl csr.request = .ok subj ∧
        parse_subject_cn subj = .ok (some cn) ∧
        stripSystemNode cn = v ∧ v ∈ node_list := by
  induction csrs generalizing d with
  | nil =>
    rw [process_csrs] at hok
    cases hok
    exact absurd hmem (List.not_mem_nil _)
  | cons item rest ih =>
    simp only [process_csrs] at hok
    split at hok
    next hp =>
      rcases ih _ hok hmem with ⟨csr, hcsr, hrest⟩
      exact ⟨csr, List.mem_cons_of_mem item hcsr, hrest⟩
    next hp =>
      rw [Bool.not_eq_false] at hp
      split at hok
      next hu =>
        split at hok
        next err hssl => cases hok
        next stdout hssl =>
          split at hok
          next e hparse => cases hok
          next hparse =>
            rcases ih _ hok hmem with ⟨csr, hcsr, hrest⟩
            exact ⟨csr, List.mem_cons_of_mem item hcsr, hrest⟩
          next cn hparse =>
            split at hok
            next hin =>
              cases hr : process_csrs openssl rest node_list mode with
              | error e =>
                rw [hr] at hok
                simp only [Except.map] at hok
                exact (Except.noConfusion hok)
              | ok dr =>
                rw [hr] at hok
                simp only [Except.map, Except.ok.injEq] at hok
                subst hok
                rcases List.mem_cons.mp hmem with hhead | htail
                · cases hhead
                  exact ⟨item, List.mem_cons_self item rest, rfl, hp, hu,
                    stdout, cn, hssl, hparse, rfl, hin⟩
                · rcases ih _ hr htail with ⟨csr, hcsr, hr2⟩
                  exact ⟨csr, List.mem_cons_of_mem item hcsr, hr2⟩
            next hin =>
              rcases ih _ hok hmem with ⟨csr, hcsr, hr⟩
              exact ⟨csr, List.mem_cons_of_mem item hcsr, hr⟩
      next hu =>
        rcases ih _ hok hmem with ⟨csr, hcsr, hr⟩
        exact ⟨csr, List.mem_cons_of_mem item hcsr, hr⟩

/-- Witness for C5 at a concrete matched CSR with the conventional
`system:node:worker-1` Common Name. -/
theorem C5_matched_only_if_witness :
    ∃ csr, csr ∈ [(⟨"cA", none, ["client auth"], "rA"⟩ : Csr)] ∧
      csr.name = "cA" ∧ pendingB csr = true ∧
      CERT_MODE .client ∈ csr.usages ∧
      ∃ subj cn,
        (fun r => if r = "rA" then Except.ok (ε := String) "subject=/CN=system:node:worker-1"
                  else .error "bad") csr.request = .ok subj ∧
        parse_subject_cn subj = .ok (some cn) ∧
        stripSystemNode cn = "worker-1" ∧ "worker-1" ∈ ["worker-1"] :=
  C5_matched_only_if
    (fun r => if r = "rA" then .ok "subject=/CN=system:node:worker-1"
              else .error "bad")
    [⟨"cA", none, ["client auth"], "rA"⟩] ["worker-1"] .client
    [("cA", "worker-1")] "cA" "worker-1" (by decide) (by decide)

/-- C6: a CSR whose status conditions are absent (`None`) or empty is treated
as pending — the scan proceeds to the usage and subject checks, and such a
CSR with matching usage and resolved Common Name is matched — while a CSR
with any present status condition is excluded, the scan of the remaining
CSRs continuing unchanged. -/
theorem C6_pending_boundary (openssl : String → Except String String)
    (node_list : List String) (mode : CertMode) (item : Csr)
    (rest : List Csr) :
    (∀ x xs, item.statusConditions = some (x :: xs) →
      process_csrs openssl (item :: rest) node_list mode =
        process_csrs openssl rest node_list mode) ∧
    ((item.statusConditions = none ∨ item.statusConditions = some []) →
      ∀ subj cn, CERT_MODE mode ∈ item.usages →
        openssl item.request = .ok subj →
        parse_subject_cn subj = .ok (some cn) →
        stripSystemNode cn ∈ node_list →
        process_csrs openssl (item :: rest) node_list mode =
          (process_csrs openssl rest node_list mode).map
            (fun d => (item.name, stripSystemNode cn) :: d)) := by
  constructor
  · intro x xs hs
    have hp : pendingB item = false := by rw [pendingB, hs]
    simp only [process_csrs, hp, if_true]
  · intro hpend subj cn hu hssl hparse hin
    have hp : pendingB item = true := by
      rcases hpend with h | h <;> rw [pendingB, h]
    simp only [process_csrs, hp, Bool.true_eq_false, if_false, hu, if_true,
      hssl, hparse, hin]

/-- Witness for C6: a CSR with an `Approved` condition is excluded; the same
CSR with empty conditions is matched. -/
theorem C6_pending_boundary_witness :
    process_csrs (fun _ => .ok "subject=/CN=n1")
        [⟨"c1", some ["Approved"], ["client auth"], "r1"⟩] ["n1"] .client =
      process_csrs (fun _ => .ok "subject=/CN=n1") [] ["n1"] .client ∧
    process_csrs (fun _ => .ok "subject=/CN=n1")
        [⟨"c1", some [], ["client auth"], "r1"⟩] ["n1"] .client =
      (process_csrs (fun _ => .ok "subject=/CN=n1") [] ["n1"] .client).map
        (fun d => ("c1", stripSystemNode "n1") :: d) :=
  ⟨(C6_pending_boundary (fun _ => .ok "subject=/CN=n1") ["n1"] .client
      ⟨"c1", some ["Approved"], ["client auth"], "r1"⟩ []).1
      "Approved" [] rfl,
   (C6_pending_boundary (fun _ => .ok "subject=/CN=n1") ["n1"] .client
      ⟨"c1", some [], ["client auth"], "r1"⟩ []).2
      (Or.inr rfl) "subject=/CN=n1" "n1" (by decide) rfl (by decide) (by decide)⟩

/-- Introspection oracle for the C2 counterexample: the payload `rgood`
decodes, every other payload makes the introspection command fail. -/
def c2oracle : String → Except String String := fun r =>
  if r = "rgood" then .ok "subject=/CN=n1" else .error "decode failed"

/-- C2 counterexample: with a pending, correctly-usaged CSR whose payload
cannot be decoded ahead of a perfectly valid CSR, `process_csrs` aborts the
whole scan fatally (`run_command` calls `fail_json`) instead of skipping the
bad CSR — the valid CSR, matched when scanned alone, is never reached. -/
theorem C2_counterexample :
    process_csrs c2oracle
        [⟨"bad", none, ["client auth"], "rbad"⟩,
         ⟨"good", none, ["client auth"], "rgood"⟩] ["n1"] .client =
      .error (.runCommandFailed "decode failed") ∧
    process_csrs c2oracle
        [⟨"good", none, ["client auth"], "rgood"⟩] ["n1"] .client =
      .ok [("good", "n1")] := by decide

/-- C2 amended: a decode failure is escalated, not skipped — whenever some
CSR in the list is pending, carries the requested usage token, and its
introspection call fails, the whole scan returns a fatal error (so no
matched set is produced at all). -/
theorem C2_decode_failure_is_fatal (openssl : String → Except String String)
    (csrs : List Csr) (node_list : List String) (mode : CertMode)
    (h : ∃ csr, csr ∈ csrs ∧ pendingB csr = true ∧
      CERT_MODE mode ∈ csr.usages ∧ ∃ err, openssl csr.request = .error err) :
    ∃ e, process_csrs openssl csrs node_list mode = .error e := by
  induction csrs with
  | nil =>
    rcases h with ⟨csr, hmem, _⟩
    exact absurd hmem (List.not_mem_nil csr)
  | cons item rest ih =>
    rcases h with ⟨csr, hmem, hp, hu, err, hssl⟩
    rcases List.mem_cons.mp hmem with hhead | htail
    · subst hhead
      simp only [process_csrs, hp, Bool.true_eq_false, if_false, hu, if_true,
        hssl]
      exact ⟨.runCommandFailed err, rfl⟩
    · rcases ih ⟨csr, htail, hp, hu, err, hssl⟩ with ⟨e, he⟩
      cases hpi : pendingB item with
      | false =>
        simp only [process_csrs, hpi, if_true]
        exact ⟨e, he⟩
      | true =>
        by_cases hui : CERT_MODE mode ∈ item.usages
        · cases hssli : openssl item.request with
          | error err2 =>
            simp only [process_csrs, hpi, Bool.true_eq_false, if_false, hui,
              if_true, hssli]
            exact ⟨.runCommandFailed err2, rfl⟩
          | ok stdout =>
            cases hparse : parse_subject_cn stdout with
            | error a =>
              simp only [process_csrs, hpi, Bool.true_eq_false, if_false, hui,
                if_true, hssli, hparse]
              exact ⟨.indexError, rfl⟩
            | ok cnOpt =>
              cases cnOpt with
              | none =>
                simp only [process_csrs, hpi, Bool.true_eq_false, if_false,
                  hui, if_true, hssli, hparse]
                exact ⟨e, he⟩
              | some cn =>
                by_cases hin : stripSystemNode cn ∈ node_list
                · simp only [process_csrs, hpi, Bool.true_eq_false, if_false,
                    hui, if_true, hssli, hparse, hin, he, Except.map]
                  exact ⟨e, rfl⟩
                · simp only [process_csrs, hpi, Bool.true_eq_false, if_false,
                    hui, if_true, hssli, hparse, hin]
                  exact ⟨e, he⟩
        · simp only [process_csrs, hpi, Bool.true_eq_false, if_false, hui]
          exact ⟨e, he⟩

/-- Witness for C2 amended at the concrete two-CSR input of the
counterexample. -/
theorem C2_decode_failure_is_fatal_witness :
    ∃ e, process_csrs c2oracle
        [⟨"bad", none, ["client auth"], "rbad"⟩,
         ⟨"good", none, ["client auth"], "rgood"⟩] ["n1"] .client = .error e :=
  C2_decode_failure_is_fatal c2oracle
    [⟨"bad", none, ["client auth"], "rbad"⟩,
     ⟨"good", none, ["client auth"], "rgood"⟩] ["n1"] .client
    ⟨⟨"bad", none, ["client auth"], "rbad"⟩,
      by decide, by decide, by decide, "decode failed", rfl⟩

/-- Probe oracle under which node `n1` is never reachable and every other
node always is. -/
def neverN1 : Nat → String → Bool := fun _ n => n != "n1"

/-- In any round, probing a set that contains a never-reachable node yields
fewer ready nodes than probed ones, so the loop's break condition
`len(nodes_server_ready) == len(not_ready_nodes_server)` is false. -/
theorem verifyLoopT_never_exits (probeAt : Nat → String → Bool) (x : String)
    (hx : ∀ r, probeAt r x = false) :
    ∀ (fuel round attempts : Nat) (not_ready : List String)
      (result : ModResult), x ∈ not_ready →
      (verifyLoopT probeAt fuel round attempts not_ready result).2 = none := by
  intro fuel
  induction fuel with
  | zero => intro round attempts not_ready result _; rfl
  | succ fuel ih =>
    intro round attempts not_ready result hmem
    have hne : not_ready.isEmpty = false := by
      rcases not_ready with _ | ⟨y, ys⟩
      · exact absurd hmem (List.not_mem_nil x)
      · rfl
    have hlen : (get_ready_nodes_server (probeAt round) not_ready).length ≠
        not_ready.length := by
      rw [get_ready_nodes_server]
      intro hcontra
      have hfeq := (List.filter_sublist not_ready).eq_of_length hcontra
      rw [List.filter_eq_self] at hfeq
      have hxt := hfeq x hmem
      rw [hx round] at hxt
      exact Bool.false_ne_true hxt
    simp only [verifyLoopT, hne, Bool.false_eq_true, if_false, hlen]
    exact ih (round + 1) (attempts + 1) not_ready _ hmem

/-- C1 (the claim is right, the code is not): with the roster `[n1]` and a
health probe that never succeeds for `n1`, `verify_server_csrs` exits its
loop under no fuel bound whatsoever — the loop guard set is never reassigned
and the `attempts > 9` branch sets the failure fields without breaking, so
the function never terminates and never returns the promised `stillUnready`
report.  (Its own docstring promises to "attempt to retry 10 times".) -/
theorem C1_poller_never_terminates :
    ∀ (fuel : Nat) (result : ModResult),
      verify_server_csrs neverN1 fuel result ["n1"] = none := by
  intro fuel result
  rw [verify_server_csrs]
  have h0 : get_ready_nodes_server (neverN1 0) ["n1"] = [] := by decide
  rw [h0]
  have h1 : (["n1"] : List String).filter
      (fun n => !(([] : List String).contains n)) = ["n1"] := by decide
  rw [h1]
  exact verifyLoopT_never_exits neverN1 "n1" (fun r => rfl) fuel 1 0 ["n1"]
    result (by decide)

/-- Probe oracle for the C4 counterexample: node `a` answers from round 1
on, node `b` never answers. -/
def probeC4 : Nat → String → Bool := fun r n => n == "a" && decide (1 ≤ r)

/-- C4 counterexample: with roster `[a, b]`, both nodes unreachable in the
pre-loop probe and `a` (only) reachable from round 1 on, round 1 is
non-terminal and finds exactly `[b]` unreachable, yet round 2 probes
`[a, b]` again — not `[b]` — because the loop never narrows
`not_ready_nodes_server`.  So "the set probed in the next round equals the
set found unreachable in the current round" is false on the code. -/
theorem C4_counterexample :
    verify_server_csrs_probed probeC4 3 ["a", "b"] =
      [["a", "b"], ["a", "b"], ["a", "b"], ["a", "b"]] ∧
    (["a", "b"] : List String).filter (fun n => !(probeC4 1 n)) = ["b"] ∧
    (verify_server_csrs_probed probeC4 3 ["a", "b"]).get? 2 ≠
      some ((["a", "b"] : List String).filter (fun n => !(probeC4 1 n))) := by
  refine ⟨by decide, by decide, ?_⟩
  intro h
  rw [show verify_server_csrs_probed probeC4 3 ["a", "b"] =
    [["a", "b"], ["a", "b"], ["a", "b"], ["a", "b"]] from by decide] at h
  rw [show (["a", "b"] : List String).filter (fun n => !(probeC4 1 n)) = ["b"]
    from by decide] at h
  exact absurd (Option.some.inj h) (by decide)

/-- C4 amended: the loop of `verify_server_csrs` never narrows its retry
set — every executed round probes exactly the set of nodes found unreachable
by the initial pre-loop probe, unchanged from round to round. -/
theorem C4_retry_set_never_narrowed (probeAt : Nat → String → Bool)
    (fuel round attempts : Nat) (not_ready : List String)
    (result : ModResult) :
    ∀ l ∈ (verifyLoopT probeAt fuel round attempts not_ready result).1,
      l = not_ready := by
  induction fuel generalizing round attempts result with
  | zero => intro l hl; exact absurd hl (List.not_mem_nil l)
  | succ fuel ih =>
    intro l hl
    simp only [verifyLoopT] at hl
    split at hl
    · exact absurd hl (List.not_mem_nil l)
    · split at hl
      · rcases List.mem_cons.mp hl with h | h
        · exact h
        · exact absurd h (List.not_mem_nil l)
      · rcases List.mem_cons.mp hl with h | h
        · exact h
        · exact ih _ _ _ l h

/-- Witness for C4 amended: in the counterexample run, the set probed in
round 2 is the initial unreachable set `[a, b]`. -/
theorem C4_retry_set_never_narrowed_witness :
    ["a", "b"] ∈ (verifyLoopT probeC4 3 1 0 ["a", "b"]
      { changed := false, rc := 0, failed := false, msg := none,
        client_approve_results := none, server_approve_results := none,
        state := none }).1 ∧
    (["a", "b"] : List String) = ["a", "b"] :=
  ⟨by decide,
   C4_retry_set_never_narrowed probeC4 3 1 0 ["a", "b"]
     { changed := false, rc := 0, failed := false, msg := none,
       client_approve_results := none, server_approve_results := none,
       state := none } ["a", "b"] (by decide)⟩

/-- On a fully successful approval pass, one command was executed per
collected stdout. -/
theorem approve_csrs_ok_length (runCommand : String → CmdOut)
    (oc_bin oc_conf : String) :
    ∀ (l : List String) (out : List String),
      (approve_csrs runCommand oc_bin oc_conf l).2 = .ok out →
      (approve_csrs runCommand oc_bin oc_conf l).1.length = out.length := by
  intro l
  induction l with
  | nil =>
    intro out h
    rw [approve_csrs] at h
    cases h
    rfl
  | cons csr rest ih =>
    intro out h
    simp only [approve_csrs] at h ⊢
    split at h
    next hr => cases h
    next hr =>
      simp only at h ⊢
      split
      next hr2 => exact absurd hr2 hr
      next hr2 =>
        cases htail : (approve_csrs runCommand oc_bin oc_conf rest).2 with
        | error f => rw [htail] at h; cases h
        | ok results =>
          rw [htail] at h
          cases h
          simpa using ih results htail

/-- The loop of `verify_server_csrs` may set `failed`, `rc` and `msg`, but
never touches the `changed` field of the result it threads. -/
theorem verifyLoopT_preserves_changed (probeAt : Nat → String → Bool) :
    ∀ (fuel round attempts : Nat) (not_ready : List String)
      (result resultF : ModResult),
      (verifyLoopT probeAt fuel round attempts not_ready result).2 =
        some resultF →
      resultF.changed = result.changed := by
  intro fuel
  induction fuel with
  | zero => intro _ _ _ _ _ h; cases h
  | succ fuel ih =>
    intro round attempts not_ready result resultF h
    simp only [verifyLoopT] at h
    split at h
    next => cases h; rfl
    next =>
      split at h
      next => cases h; rfl
      next =>
        have hch := ih (round + 1) (attempts + 1) not_ready _ resultF h
        rw [hch]
        split <;> rfl

/-- `verify_server_csrs` never touches the `changed` field. -/
theorem verify_server_csrs_preserves_changed (probeAt : Nat → String → Bool)
    (fuel : Nat) (result resultF : ModResult) (node_list : List String)
    (h : verify_server_csrs probeAt fuel result node_list = some resultF) :
    resultF.changed = result.changed := by
  simp only [verify_server_csrs] at h
  exact verifyLoopT_preserves_changed probeAt fuel 1 0 _ result resultF h

/-- Oracles of the C3 counterexample run: one roster node `n1`, already
client-ready; one pending client CSR `c1` for `n1`, whose approval succeeds;
one pending server CSR `c2` for `n1`, whose approval action fails. -/
def exO : Oracles :=
  { getNodes := .ok ["n1"]
  , getCsrs1 := .ok [⟨"c1", none, ["client auth"], "r1"⟩]
  , getCsrs2 := .ok [⟨"c2", none, ["server auth"], "r2"⟩]
  , openssl := fun _ => .ok "subject=/CN=n1"
  , runApprove := fun cmd =>
      if cmd = "oc --config=/etc/origin/master/admin.kubeconfig adm certificate approve c1"
      then ⟨0, "approved-c1", ""⟩ else ⟨1, "out-c2", "boom"⟩
  , probeAt := fun _ _ => false }

/-- The fail_json dictionary the C3 counterexample run terminates with. -/
def exFatalResult : ModResult :=
  { changed := false, rc := 0, failed := true, msg := some "boom",
    client_approve_results := none,
    server_approve_results := some ["out-c2"], state := some "unknown" }

/-- C3 counterexample: in the `exO` run the client approval for `c1` is
executed and succeeds (a state change was performed), then the server
approval for `c2` fails — and the reported result carries `changed = false`.
So "the returned changed field is true iff at least one approval action was
performed, also on runs that end in a fatal error" is false on the code. -/
theorem C3_counterexample :
    (run_module exO 1 ["n1"]).1 =
      ["oc --config=/etc/origin/master/admin.kubeconfig adm certificate approve c1",
       "oc --config=/etc/origin/master/admin.kubeconfig adm certificate approve c2"] ∧
    (exO.runApprove
      "oc --config=/etc/origin/master/admin.kubeconfig adm certificate approve c1").rtnc = 0 ∧
    (run_module exO 1 ["n1"]).2 = some (.fatal exFatalResult) ∧
    exFatalResult.changed = false := by decide

/-- C3 amended: on runs that reach the normal exit, `changed` is true iff at
least one approval action was executed; but on every run that terminates
through `fail_json`, the reported `changed` is `false` regardless of the
approvals already performed (each fatal path builds a fresh dictionary with
`changed: False`). -/
theorem C3_changed_reporting (o : Oracles) (fuel : Nat)
    (node_list : List String) :
    (∀ inv r, run_module o fuel node_list = (inv, some (.exit r)) →
      (r.changed = true ↔ inv ≠ [])) ∧
    (∀ inv r, run_module o fuel node_list = (inv, some (.fatal r)) →
      r.changed = false) := by
  constructor
  · intro inv r h
    simp only [run_module] at h
    split at h
    next => cases h
    next nodes_ready heqN =>
      split at h
      next => cases h
      next csrs heqC =>
        split at h
        next e heqP => cases e <;> simp only [pyErrOutcome] at h <;> cases h
        next csr_dict heqP =>
          split at h
          next => cases h
          next heqCf =>
            split at h
            next f heqA1 => cases h
            next cres heqA1 =>
              split at h
              next => cases h
              next csrs2 heqC2 =>
                split at h
                next e heqP2 =>
                  cases e <;> simp only [pyErrOutcome] at h <;> cases h
                next csr_dict2 heqP2 =>
                  split at h
                  next => cases h
                  next heqCf2 =>
                    split at h
                    next f heqA2 => cases h
                    next sres heqA2 =>
                      split at h
                      next => cases h
                      next resultN heqV =>
                        cases h
                        have hch := verify_server_csrs_preserves_changed
                          _ fuel _ _ node_list heqV
                        rw [hch]
                        have hl1 := approve_csrs_ok_length o.runApprove _ _
                          (csr_dict.map Prod.fst) cres heqA1
                        have hl2 := approve_csrs_ok_length o.runApprove _ _
                          (csr_dict2.map Prod.fst) sres heqA2
                        constructor
                        · intro hc hnil
                          rcases List.append_eq_nil.mp hnil with ⟨h1, h2⟩
                          rw [h1] at hl1
                          rw [h2] at hl2
                          have hc1 : cres = [] :=
                            List.length_eq_zero.mp hl1.symm
                          have hc2 : sres = [] :=
                            List.length_eq_zero.mp hl2.symm
                          rw [hc1, hc2] at hc
                          simp at hc
                        · intro hne
                          by_contra hc
                          rw [Bool.not_eq_true, Bool.or_eq_false_iff,
                            Bool.not_eq_false', Bool.not_eq_false'] at hc
                          rcases hc with ⟨hc1, hc2⟩
                          rw [List.isEmpty_iff] at hc1 hc2
                          rw [hc1] at hl1
                          rw [hc2] at hl2
                          apply hne
                          rw [List.append_eq_nil]
                          exact ⟨List.length_eq_zero.mp hl1,
                            List.length_eq_zero.mp hl2⟩
  · intro inv r h
    simp only [run_module] at h
    split at h
    next msg heq => cases h; rfl
    next nodes_ready heqN =>
      split at h
      next msg heq => cases h; rfl
      next csrs heqC =>
        split at h
        next e heqP =>
          cases e <;> simp only [pyErrOutcome] at h <;> cases h
          rfl
        next csr_dict heqP =>
          split at h
          next missing heqCf => cases h; rfl
          next heqCf =>
            split at h
            next f heqA1 => cases h; rfl
            next cres heqA1 =>
              split at h
              next msg heq => cases h; rfl
              next csrs2 heqC2 =>
                split at h
                next e heqP2 =>
                  cases e <;> simp only [pyErrOutcome] at h <;> cases h
                  rfl
                next csr_dict2 heqP2 =>
                  split at h
                  next missing heqCf2 => cases h; rfl
                  next heqCf2 =>
                    split at h
                    next f heqA2 => cases h; rfl
                    next sres heqA2 =>
                      split at h
                      next => cases h
                      next resultN heqV => cases h

/-- Oracles of an empty, trivially successful run (empty roster, no CSRs). -/
def emptyO : Oracles :=
  { getNodes := .ok [], getCsrs1 := .ok [], getCsrs2 := .ok []
  , openssl := fun _ => .error "unused"
  , runApprove := fun _ => ⟨0, "", ""⟩
  , probeAt := fun _ _ => false }

/-- The exit_json result of the empty run. -/
def emptyExitResult : ModResult :=
  { changed := false, rc := 0, failed := false, msg := none,
    client_approve_results := some [], server_approve_results := some [],
    state := none }

/-- Witness for C3 amended: the empty run exits normally with
`changed = false` and no approvals; the `exO` run ends fatally with
`changed = false`. -/
theorem C3_changed_reporting_witness :
    (emptyExitResult.changed = true ↔ ([] : List String) ≠ []) ∧
    exFatalResult.changed = false :=
  ⟨(C3_changed_reporting emptyO 1 []).1 [] emptyExitResult (by decide),
   (C3_changed_reporting exO 1 ["n1"]).2
     ["oc --config=/etc/origin/master/admin.kubeconfig adm certificate approve c1",
      "oc --config=/etc/origin/master/admin.kubeconfig adm certificate approve c2"]
     exFatalResult (by decide)⟩

end OcCsrApprove
